import Mathlib

/-!
Shallow embedding of the Fraud-Detection-System core (Python/FastAPI) in Lean 4.

Scores are modelled as rationals (ℚ): the Python code manipulates decimal
literals (0.05, 0.2, 0.3, 0.4, 0.6, 0.7, 1.0) with +, *, min, max and
comparisons, which ℚ captures exactly.

Human-readable reason strings built with f-string interpolation are modelled
by an inductive `Reason` carrying the interpolated data, since the exact
float rendering is irrelevant to every property of interest (which reasons
fire, and in which order).
-/

namespace FraudDetection

/-- app/models/schemas.py, `TransactionCreate` (= `TransactionBase`).
Optional fields are `Option String`; Python truthiness of an optional string
(None and the empty string are falsy) is `optStrTruthy` below. -/
structure TransactionCreate where
  amount : ℚ
  currency : String := "USD"
  transaction_type : String
  merchant_name : String
  merchant_category : String
  merchant_country : String
  customer_id : String
  customer_email : Option String := none
  card_last_four : Option String := none
  payment_method : String
  transaction_country : String
  transaction_city : Option String := none
  ip_address : Option String := none
  device_id : Option String := none
  device_type : Option String := none
  description : Option String := none
deriving DecidableEq, Repr

/-- app/models/schemas.py, `TransactionStatus` enum. -/
inductive TransactionStatus where
  | PENDING
  | APPROVED
  | DECLINED
  | FLAGGED
  | UNDER_REVIEW
deriving DecidableEq, Repr

/-- Python truthiness of an `Optional[str]`: `None` and `""` are falsy. -/
def optStrTruthy : Option String → Bool
  | none => false
  | some s => !s.isEmpty

/-- The character list `needle` occurs at the start of `hay`. -/
def charsStart : List Char → List Char → Bool
  | [], _ => true
  | _ :: _, [] => false
  | a :: as, b :: bs => a == b && charsStart as bs

/-- The character list `needle` occurs contiguously somewhere in `hay`. -/
def charsOccur : List Char → List Char → Bool
  | needle, [] => charsStart needle []
  | needle, b :: bs => charsStart needle (b :: bs) || charsOccur needle bs

/-- Python `needle in hay` on strings: substring containment. -/
def strContains (hay needle : String) : Bool :=
  charsOccur needle.toList hay.toList

/-- Python `str.lower()`: lowercase every character (the configured
suspicious substrings are ASCII, where Python and Lean lowercasing
agree). -/
def strToLower (s : String) : String :=
  String.mk (s.toList.map Char.toLower)

/-- app/services/fraud_detector.py line 13, `FraudDetector.HIGH_RISK_AMOUNT`. -/
def HIGH_RISK_AMOUNT : ℚ := 10000

/-- app/services/fraud_detector.py line 14, `FraudDetector.MEDIUM_RISK_AMOUNT`. -/
def MEDIUM_RISK_AMOUNT : ℚ := 5000

/-- app/services/fraud_detector.py line 17, `FraudDetector.HIGH_RISK_COUNTRIES`. -/
def HIGH_RISK_COUNTRIES : List String := ["XX", "YY"]

/-- app/services/fraud_detector.py line 20, `FraudDetector.SUSPICIOUS_MERCHANTS`. -/
def SUSPICIOUS_MERCHANTS : List String := ["test", "suspicious", "fraud"]

/-- The risk-factor explanations built by
app/services/ml_model.py lines 203-212 (dict insertion order preserved);
the f-string text is abstracted to the constructor, with the interpolated
amount as payload. -/
inductive RiskFactor where
  | high_amount (amount : ℚ)
  | cross_border
  | high_risk_location
  | risky_payment
deriving DecidableEq, Repr

/-- The reason strings appended by `FraudDetector._apply_rules` and
`FraudDetector.analyze_transaction`, with the f-string interpolated data
carried as payloads. -/
inductive Reason where
  | highAmount (amount : ℚ)
  | mediumHighAmount (amount : ℚ)
  | highRiskMerchantCountry (country : String)
  | highRiskTransactionCountry (country : String)
  | crossBorder
  | suspiciousMerchantName (merchant_name : String)
  | largeAmountOnPrepaidCard
  | missingDeviceInformation
  | missingIpAddress
  | mlHighFraudProbability (p : ℚ)
  | mlMediumFraudProbability (p : ℚ)
  | mlRiskFactor (factor : RiskFactor)
deriving DecidableEq, Repr

/-!
`FraudDetector._apply_rules` (app/services/fraud_detector.py lines 68-123)
accumulates `(risk_score, reasons)` through six sequential rule blocks and
caps the score at 1.0.  Each source block is one step function here, and
`_apply_rules` is their exact sequential composition.
-/

/-- fraud_detector.py lines 76-82, Rule 1: high transaction amount
(mutually exclusive bands). -/
def rule_high_amount (t : TransactionCreate) (acc : ℚ × List Reason) : ℚ × List Reason :=
  if t.amount > HIGH_RISK_AMOUNT then
    (acc.1 + 0.4, acc.2 ++ [.highAmount t.amount])
  else if t.amount > MEDIUM_RISK_AMOUNT then
    (acc.1 + 0.2, acc.2 ++ [.mediumHighAmount t.amount])
  else acc

/-- fraud_detector.py lines 85-87, Rule 2 (merchant half): high-risk
merchant country. -/
def rule_merchant_country (t : TransactionCreate) (acc : ℚ × List Reason) : ℚ × List Reason :=
  if t.merchant_country ∈ HIGH_RISK_COUNTRIES then
    (acc.1 + 0.3, acc.2 ++ [.highRiskMerchantCountry t.merchant_country])
  else acc

/-- fraud_detector.py lines 89-91, Rule 2 (transaction half): high-risk
transaction country. -/
def rule_transaction_country (t : TransactionCreate) (acc : ℚ × List Reason) : ℚ × List Reason :=
  if t.transaction_country ∈ HIGH_RISK_COUNTRIES then
    (acc.1 + 0.2, acc.2 ++ [.highRiskTransactionCountry t.transaction_country])
  else acc

/-- fraud_detector.py lines 94-96, Rule 3: cross-border transaction. -/
def rule_cross_border (t : TransactionCreate) (acc : ℚ × List Reason) : ℚ × List Reason :=
  if t.merchant_country ≠ t.transaction_country then
    (acc.1 + 0.1, acc.2 ++ [.crossBorder])
  else acc

/-- fraud_detector.py lines 99-104, Rule 4: suspicious merchant name.
The for-loop with break adds 0.3 and one reason if any configured
substring occurs in the lowercased merchant name (the appended reason
cites the merchant name, independent of which substring matched, so
`List.any` renders the loop-with-break exactly). -/
def rule_suspicious_merchant (t : TransactionCreate) (acc : ℚ × List Reason) : ℚ × List Reason :=
  if SUSPICIOUS_MERCHANTS.any (fun s => strContains (strToLower t.merchant_name) s) then
    (acc.1 + 0.3, acc.2 ++ [.suspiciousMerchantName t.merchant_name])
  else acc

/-- fraud_detector.py lines 107-109, Rule 5: unusual payment method for
the amount. -/
def rule_payment_method (t : TransactionCreate) (acc : ℚ × List Reason) : ℚ × List Reason :=
  if t.amount > 5000 ∧ t.payment_method = "prepaid_card" then
    (acc.1 + 0.2, acc.2 ++ [.largeAmountOnPrepaidCard])
  else acc

/-- fraud_detector.py lines 112-114, Rule 6 (device half): missing device
information. -/
def rule_missing_device (t : TransactionCreate) (acc : ℚ × List Reason) : ℚ × List Reason :=
  if !optStrTruthy t.device_id then
    (acc.1 + 0.05, acc.2 ++ [.missingDeviceInformation])
  else acc

/-- fraud_detector.py lines 116-118, Rule 6 (IP half): missing IP
address. -/
def rule_missing_ip (t : TransactionCreate) (acc : ℚ × List Reason) : ℚ × List Reason :=
  if !optStrTruthy t.ip_address then
    (acc.1 + 0.05, acc.2 ++ [.missingIpAddress])
  else acc

/-- app/services/fraud_detector.py lines 68-123, `FraudDetector._apply_rules`:
start from `(0.0, [])`, apply the six rule blocks in source order, then cap
the score at 1.0. -/
def _apply_rules (t : TransactionCreate) : ℚ × List Reason :=
  let acc : ℚ × List Reason := (0, [])
  let acc := rule_high_amount t acc
  let acc := rule_merchant_country t acc
  let acc := rule_transaction_country t acc
  let acc := rule_cross_border t acc
  let acc := rule_suspicious_merchant t acc
  let acc := rule_payment_method t acc
  let acc := rule_missing_device t acc
  let acc := rule_missing_ip t acc
  (min acc.1 1.0, acc.2)

/-- app/services/fraud_detector.py lines 125-132, `FraudDetector.get_risk_level`. -/
def get_risk_level (risk_score : ℚ) : String :=
  if risk_score ≥ 0.7 then "high"
  else if risk_score ≥ 0.3 then "medium"
  else "low"

/-- app/services/fraud_detector.py lines 134-136, `FraudDetector.is_fraud`. -/
def is_fraud (risk_score : ℚ) : Bool :=
  risk_score ≥ 0.7

/-! ## ML model (app/services/ml_model.py) -/

/-- Python `dict.get(key, default)` over a literal dict of string keys and
rational values (the risk lookup tables of `extract_features`). -/
def dictGet (d : List (String × ℚ)) (k : String) (default : ℚ) : ℚ :=
  match d.find? (fun kv => kv.1 == k) with
  | some kv => kv.2
  | none => default

/-- app/services/ml_model.py lines 53-59, payment-method risk lookup. -/
def payment_risk : List (String × ℚ) :=
  [("credit_card", 0.2), ("debit_card", 0.3), ("prepaid_card", 0.8),
   ("bank_transfer", 0.1), ("cash", 0.5)]

/-- app/services/ml_model.py lines 63-70, transaction-type risk lookup. -/
def transaction_risk : List (String × ℚ) :=
  [("purchase", 0.2), ("withdrawal", 0.4), ("transfer", 0.6),
   ("deposit", 0.1), ("payment", 0.3), ("refund", 0.5)]

/-- app/services/ml_model.py lines 74-83, merchant-category risk lookup. -/
def category_risk : List (String × ℚ) :=
  [("Food & Beverage", 0.1), ("Retail", 0.2), ("E-commerce", 0.3),
   ("Electronics", 0.4), ("Jewelry", 0.5), ("Money Transfer", 0.7),
   ("ATM", 0.6), ("Gambling", 0.9)]

/-- app/services/ml_model.py line 91, `high_risk_countries` inside
`extract_features` (note: differs from the rule evaluator set by `ZZ`). -/
def ml_high_risk_countries : List String := ["XX", "YY", "ZZ"]

/-- app/services/ml_model.py lines 33-119, `FraudMLModel.extract_features`.
The wall-clock reads `datetime.now().hour` and `datetime.now().weekday()`
are injected as the parameters `now_hour` and `now_weekday`.  Returns the
fixed-order 12-entry feature vector. -/
def extract_features (now_hour now_weekday : ℕ) (t : TransactionCreate) : List ℚ :=
  let is_weekend : ℚ := if now_weekday ≥ 5 then 1 else 0
  let is_cross_border : ℚ := if t.merchant_country ≠ t.transaction_country then 1 else 0
  let merchant_risk : ℚ := if t.merchant_country ∈ ml_high_risk_countries then 1 else 0
  let transaction_country_risk : ℚ := if t.transaction_country ∈ ml_high_risk_countries then 1 else 0
  let has_device_info : ℚ := if optStrTruthy t.device_id then 1 else 0
  let has_ip_info : ℚ := if optStrTruthy t.ip_address then 1 else 0
  let amount_bracket : ℚ :=
    if t.amount > 10000 then 4
    else if t.amount > 5000 then 3
    else if t.amount > 1000 then 2
    else if t.amount > 100 then 1
    else 0
  [t.amount, (now_hour : ℚ), is_weekend,
   dictGet payment_risk t.payment_method 0.5,
   dictGet transaction_risk t.transaction_type 0.5,
   dictGet category_risk t.merchant_category 0.5,
   is_cross_border, merchant_risk, transaction_country_risk,
   has_device_info, has_ip_info, amount_bracket]

/-- The explanation dict returned by
`FraudMLModel.predict_fraud_probability`: one constructor per return shape
(no model: line 182; successful prediction: lines 214-218; caught
prediction exception: line 222). -/
inductive MLExplanation where
  | noModel (status : String)
  | predicted (ml_score : ℚ) (risk_factors : List RiskFactor) (model_confidence : String)
  | predictionFailed (status : String) (error : String)
deriving DecidableEq, Repr

/-- Python `explanation.get("model_confidence", "unknown")` as read by
`FraudDetector.analyze_transaction` (fraud_detector.py line 62). -/
def MLExplanation.modelConfidence : MLExplanation → String
  | .predicted _ _ c => c
  | _ => "unknown"

/-- Python `"risk_factors" in ml_explanation` plus the lookup
(fraud_detector.py lines 50-52). -/
def MLExplanation.riskFactors : MLExplanation → Option (List RiskFactor)
  | .predicted _ rf _ => some rf
  | _ => none

/-- app/services/ml_model.py lines 175-222,
`FraudMLModel.predict_fraud_probability`.  The trained-classifier pipeline
(`self.scaler.transform` followed by `self.model.predict_proba(...)[0][1]`)
is an external artifact; it is injected as `model`, with `none` standing
for `self.model is None` and a raised exception inside the try-block
modelled by the `Except.error` outcome of the injected function. -/
def predict_fraud_probability (model : Option (List ℚ → Except String ℚ))
    (now_hour now_weekday : ℕ) (t : TransactionCreate) : ℚ × MLExplanation :=
  match model with
  | none => (0.5, .noModel "No ML model available, using rules only")
  | some predict =>
    let features := extract_features now_hour now_weekday t
    match predict features with
    | .error e => (0.5, .predictionFailed "ML prediction failed" e)
    | .ok fraud_probability =>
      let explanations : List RiskFactor :=
        (if features.getD 0 0 > 5000 then [.high_amount (features.getD 0 0)] else []) ++
        (if features.getD 6 0 = 1 then [.cross_border] else []) ++
        (if features.getD 7 0 = 1 ∨ features.getD 8 0 = 1 then [.high_risk_location] else []) ++
        (if features.getD 3 0 > 0.5 then [.risky_payment] else [])
      (fraud_probability,
       .predicted fraud_probability explanations
         (if |fraud_probability - 0.5| > 0.3 then "high" else "medium"))

/-! ## Risk scoring engine (FraudDetector.analyze_transaction) -/

/-- The `ml_info` dict built by fraud_detector.py lines 58-64. -/
structure MLInfo where
  ml_score : ℚ
  rule_score : ℚ
  combined_score : ℚ
  ml_confidence : String
  rule_weight : ℚ
  ml_weight : ℚ
deriving DecidableEq, Repr

/-- The `(combined_risk_score, reasons, ml_info)` triple returned by
`FraudDetector.analyze_transaction`, as a structure. -/
structure AnalysisResult where
  combined_score : ℚ
  all_reasons : List Reason
  ml_info : MLInfo
deriving DecidableEq, Repr

/-- app/services/fraud_detector.py lines 22-66,
`FraudDetector.analyze_transaction`.  The call
`ml_model.predict_fraud_probability(transaction.dict())` is injected as the
pair `(ml_probability, ml_explanation)`, so the engine is a pure function
of its transaction and the ML outcome, exactly as in the source. -/
def analyze_transaction (t : TransactionCreate)
    (ml_probability : ℚ) (ml_explanation : MLExplanation) : AnalysisResult :=
  let ruleResult := _apply_rules t
  let rule_score := ruleResult.1
  let rule_reasons := ruleResult.2
  let rule_weight : ℚ := 0.4
  let ml_weight : ℚ := 0.6
  let combined_score := rule_score * rule_weight + ml_probability * ml_weight
  let all_reasons := rule_reasons
  let all_reasons :=
    if ml_probability > 0.7 then all_reasons ++ [.mlHighFraudProbability ml_probability]
    else if ml_probability > 0.5 then all_reasons ++ [.mlMediumFraudProbability ml_probability]
    else all_reasons
  let all_reasons :=
    match ml_explanation.riskFactors with
    | some rf => all_reasons ++ rf.map (fun f => .mlRiskFactor f)
    | none => all_reasons
  let combined_score := min (max combined_score 0.0) 1.0
  { combined_score := combined_score
    all_reasons := all_reasons
    ml_info :=
      { ml_score := ml_probability
        rule_score := rule_score
        combined_score := combined_score
        ml_confidence := ml_explanation.modelConfidence
        rule_weight := rule_weight
        ml_weight := ml_weight } }

/-- app/services/fraud_detector.py lines 138-163,
`FraudDetector.get_recommendations`.  In the source `ml_info` is always the
non-empty dict built by `analyze_transaction`, so the Python truthiness
test `if ml_info and ...` reduces to the score comparison. -/
def get_recommendations (risk_score : ℚ) (risk_level : String) (ml_info : MLInfo) :
    List String :=
  let recommendations : List String := []
  let recommendations :=
    if |ml_info.ml_score - ml_info.rule_score| > 0.4 then
      recommendations ++ ["ML and rule scores differ significantly - manual review recommended"]
    else recommendations
  if risk_level = "high" then
    recommendations ++
      ["Block transaction immediately",
       "Contact customer for verification",
       "Flag for manual review"]
  else if risk_level = "medium" then
    recommendations ++
      ["Request additional verification",
       "Monitor customer activity",
       "Consider transaction limits"]
  else
    let recommendations := recommendations ++ ["Approve transaction"]
    if risk_score > 0.1 then
      recommendations ++ ["Continue monitoring for patterns"]
    else recommendations

/-! ## Transaction pipeline (app/main.py) -/

/-- app/models/schemas.py lines 67-87, `TransactionResponse`.  Reason
strings are the `Reason` embedding; timestamps are opaque strings. -/
structure TransactionResponse where
  id : ℤ
  amount : ℚ
  currency : String
  transaction_type : String
  merchant_name : String
  merchant_category : String
  merchant_country : String
  customer_id : String
  customer_email : Option String
  card_last_four : Option String
  payment_method : String
  transaction_country : String
  transaction_city : Option String
  ip_address : Option String
  device_id : Option String
  device_type : Option String
  description : Option String
  status : TransactionStatus
  risk_score : ℚ
  risk_level : String
  fraud_prediction : Bool
  created_at : String
  updated_at : Option String
  fraud_reasons : List Reason
  verification_required : Bool
  ml_score : Option ℚ
  rule_score : Option ℚ
  ml_confidence : Option String
deriving DecidableEq, Repr

/-- FastAPI `HTTPException(status_code, detail)` raised by the endpoints. -/
structure HTTPException where
  status_code : ℕ
  detail : String
deriving DecidableEq, Repr

/-- The scored record persisted and returned by the direct mode of
`create_transaction` (app/main.py lines 287-334) and mirrored by the
consumer's `_process_single_message`; the database-assigned id and
timestamps are outside the scoring core. -/
structure DirectResult where
  status : TransactionStatus
  risk_score : ℚ
  risk_level : String
  fraud_prediction : Bool
  fraud_reasons : List Reason
  verification_required : Bool
  ml_info : MLInfo
deriving DecidableEq, Repr

/-- app/main.py lines 287-311 (also app/services/kafka_consumer.py lines
103-125): the direct scoring path — analyze, derive level and fraud flag,
assign status (fraud → DECLINED; else medium → FLAGGED; else APPROVED),
and set `verification_required = risk_level in ["medium", "high"]`.
The ML outcome is injected as in `analyze_transaction`. -/
def create_transaction_direct (t : TransactionCreate)
    (ml_probability : ℚ) (ml_explanation : MLExplanation) : DirectResult :=
  let ar := analyze_transaction t ml_probability ml_explanation
  let risk_score := ar.combined_score
  let fraud_reasons := ar.all_reasons
  let ml_info := ar.ml_info
  let risk_level := get_risk_level risk_score
  let fraud := is_fraud risk_score
  let status : TransactionStatus :=
    if fraud then .DECLINED
    else if risk_level = "medium" then .FLAGGED
    else .APPROVED
  { status := status
    risk_score := risk_score
    risk_level := risk_level
    fraud_prediction := fraud
    fraud_reasons := fraud_reasons
    verification_required := (risk_level == "medium" || risk_level == "high")
    ml_info := ml_info }

/-- app/main.py lines 271-285: the immediate `TransactionResponse` returned
by the streamed (`stream_mode=True`) branch of `create_transaction` after a
successful publish — placeholder id 0, status PENDING, zero risk score,
level low, no fraud flag/reasons, and null ML fields. -/
def streamed_response (t : TransactionCreate) (now : String) : TransactionResponse :=
  { id := 0
    amount := t.amount
    currency := t.currency
    transaction_type := t.transaction_type
    merchant_name := t.merchant_name
    merchant_category := t.merchant_category
    merchant_country := t.merchant_country
    customer_id := t.customer_id
    customer_email := t.customer_email
    card_last_four := t.card_last_four
    payment_method := t.payment_method
    transaction_country := t.transaction_country
    transaction_city := t.transaction_city
    ip_address := t.ip_address
    device_id := t.device_id
    device_type := t.device_type
    description := t.description
    status := .PENDING
    risk_score := 0.0
    risk_level := "low"
    fraud_prediction := false
    created_at := now
    updated_at := none
    fraud_reasons := []
    verification_required := false
    ml_score := none
    rule_score := none
    ml_confidence := none }

/-- app/main.py lines 256-285 with the surrounding try/except (lines
255, 336-339): the streamed branch of `create_transaction`.  On publish
failure it raises `HTTPException(503, ...)`, which the generic
`except Exception` handler catches and re-raises as an
`HTTPException(500, ...)` — either way the request is rejected.  The
publish outcome is injected as `publish_success` (the Bool returned by
`kafka_producer.publish_transaction`). -/
def create_transaction_streamed (publish_success : Bool)
    (t : TransactionCreate) (now : String) : Except HTTPException TransactionResponse :=
  let inner : Except HTTPException TransactionResponse :=
    if !publish_success then
      .error { status_code := 503, detail := "Failed to publish to Kafka stream" }
    else
      .ok (streamed_response t now)
  match inner with
  | .ok r => .ok r
  | .error e =>
      .error { status_code := 500
               detail := "Failed to create transaction: " ++ toString e.status_code ++ ": " ++ e.detail }

/-- app/models/schemas.py lines 90-101, `TransactionAnalysis`. -/
structure TransactionAnalysis where
  transaction_id : ℤ
  risk_score : ℚ
  risk_level : String
  fraud_prediction : Bool
  fraud_reasons : List Reason
  recommendations : List String
  requires_manual_review : Bool
  ml_info : MLInfo
deriving DecidableEq, Repr

/-- app/main.py lines 360-380, the `/api/v1/transactions/analyze` endpoint:
score without saving and set `requires_manual_review = risk_level ==
"medium" or abs(ml_info[ml_score] - ml_info[rule_score]) > 0.4` (both keys
are always present in the dict built by `analyze_transaction`, so the
`.get(..., 0)` defaults never apply). -/
def analyze_transaction_endpoint (t : TransactionCreate)
    (ml_probability : ℚ) (ml_explanation : MLExplanation) : TransactionAnalysis :=
  let ar := analyze_transaction t ml_probability ml_explanation
  let risk_score := ar.combined_score
  let risk_level := get_risk_level risk_score
  let fraud := is_fraud risk_score
  let recommendations := get_recommendations risk_score risk_level ar.ml_info
  { transaction_id := 0
    risk_score := risk_score
    risk_level := risk_level
    fraud_prediction := fraud
    fraud_reasons := ar.all_reasons
    recommendations := recommendations
    requires_manual_review :=
      (risk_level == "medium" || decide (|ar.ml_info.ml_score - ar.ml_info.rule_score| > 0.4))
    ml_info := ar.ml_info }

/-! ## Streaming transport adapter (app/services/kafka_producer.py) -/

/-- app/core/kafka_config.py, `KafkaSettings.TRANSACTION_TOPIC`. -/
def TRANSACTION_TOPIC : String := "fraud-detection-transactions"

/-- app/core/kafka_config.py, `KafkaSettings.ALERT_TOPIC`. -/
def ALERT_TOPIC : String := "fraud-detection-alerts"

/-- app/core/kafka_config.py, `KafkaSettings.PROCESSED_TOPIC`. -/
def PROCESSED_TOPIC : String := "fraud-detection-processed"

/-- The inbound-channel message built by
`KafkaProducerService.publish_transaction` (kafka_producer.py lines 59-64):
`{transaction_id, timestamp, data, status: "pending_analysis"}`. -/
structure InboundMessage where
  transaction_id : String
  timestamp : String
  data : TransactionCreate
  status : String
deriving DecidableEq, Repr

/-- The alert payload built by app/main.py lines 319-328 and
app/services/kafka_consumer.py lines 148-157. -/
structure AlertData where
  transaction_id : String
  alert_type : String
  risk_score : ℚ
  amount : ℚ
  merchant : String
  customer_id : String
  reasons : List Reason
  timestamp : String
deriving DecidableEq, Repr

/-- The processed-result payload built by
app/services/kafka_consumer.py lines 132-141. -/
structure ProcessedResult where
  transaction_id : String
  status : String
  risk_score : ℚ
  risk_level : String
  fraud_prediction : Bool
  fraud_reasons : List Reason
  ml_info : MLInfo
  processed_at : String
deriving DecidableEq, Repr

/-- `true` exactly on `Except.ok` — the success of an attempted transport
send (`await self.producer.send(...)` either returns or raises
`KafkaError`). -/
def sendSucceeded {ε α : Type} : Except ε α → Bool
  | .ok _ => true
  | .error _ => false

/-- app/services/kafka_producer.py lines 50-78,
`KafkaProducerService.publish_transaction`.  The broker interaction
`self.producer.send(topic, key, value)` is injected as `send`; a raised
`KafkaError` is its `Except.error` outcome.  Builds the inbound message,
sends it, and returns `True` on success and `False` on `KafkaError` —
the synchronous success/failure report to the caller. -/
def publish_transaction (send : String → String → InboundMessage → Except String Unit)
    (transaction_data : TransactionCreate) (transaction_id : String) (now : String) : Bool :=
  let message : InboundMessage :=
    { transaction_id := transaction_id
      timestamp := now
      data := transaction_data
      status := "pending_analysis" }
  match send TRANSACTION_TOPIC transaction_id message with
  | .ok _ => true
  | .error _ => false

/-- app/services/kafka_producer.py lines 80-102,
`KafkaProducerService.publish_alert`: key is the alert's transaction id;
returns `True` on success, `False` on `KafkaError`. -/
def publish_alert (send : String → String → AlertData → Except String Unit)
    (alert_data : AlertData) : Bool :=
  match send ALERT_TOPIC alert_data.transaction_id alert_data with
  | .ok _ => true
  | .error _ => false

/-- app/services/kafka_producer.py lines 104-126,
`KafkaProducerService.publish_processed_result`: key is the result's
transaction id; returns `True` on success, `False` on `KafkaError`. -/
def publish_processed_result (send : String → String → ProcessedResult → Except String Unit)
    (result_data : ProcessedResult) : Bool :=
  match send PROCESSED_TOPIC result_data.transaction_id result_data with
  | .ok _ => true
  | .error _ => false

/-! ## Consume loop (app/services/kafka_consumer.py) -/

/-- The mutable fields of `KafkaConsumerService` read and written by the
processing loop (kafka_consumer.py lines 26-30). -/
structure ConsumerState where
  running : Bool
  processed_count : ℕ
  error_count : ℕ
deriving DecidableEq, Repr

/-- app/services/kafka_consumer.py lines 66-87,
`KafkaConsumerService.process_messages`, on the finite sequence of
messages the transport delivers.  `handle` is the injected outcome of
`self._process_single_message` (an `Except.error` is a raised exception,
caught by the inner try/except).  Per message: stop if no longer running;
on success increment `processed_count`; on exception increment
`error_count` and log; in both cases continue with the next message. -/
def process_messages {α : Type} (handle : α → Except String Unit)
    (msgs : List α) (st : ConsumerState) : ConsumerState :=
  match msgs with
  | [] => st
  | m :: rest =>
    if !st.running then st
    else
      match handle m with
      | .ok _ => process_messages handle rest { st with processed_count := st.processed_count + 1 }
      | .error _ => process_messages handle rest { st with error_count := st.error_count + 1 }

/-! ## Alert fan-out registry (app/services/websocket_manager.py) -/

/-- A live WebSocket connection handle, identified opaquely. -/
abbrev Conn := ℕ

/-- The per-connection metadata dict stored by `WebSocketManager.connect`
(websocket_manager.py lines 25-29). -/
structure ConnMeta where
  client_id : Option String
  connected_at : String
  alerts_received : ℕ
deriving DecidableEq, Repr

/-- The mutable state of `WebSocketManager` (websocket_manager.py lines
15-17): the connection list and the metadata dict (an association list
with at most one entry per connection). -/
structure WSState where
  active_connections : List Conn
  connection_metadata : List (Conn × ConnMeta)
deriving DecidableEq, Repr

/-- app/services/websocket_manager.py lines 40-48,
`WebSocketManager.disconnect`: remove the connection from the active list
if present (Python `list.remove` drops the first occurrence) and pop its
metadata entry. -/
def disconnect (st : WSState) (ws : Conn) : WSState :=
  let active :=
    if ws ∈ st.active_connections then st.active_connections.erase ws
    else st.active_connections
  { active_connections := active
    connection_metadata := st.connection_metadata.filter (fun p => p.1 ≠ ws) }

/-- The metadata update inside the send loop (websocket_manager.py lines
69-70): bump `alerts_received` for the connection if it has a metadata
entry. -/
def bumpAlerts (meta : List (Conn × ConnMeta)) (c : Conn) : List (Conn × ConnMeta) :=
  meta.map (fun p =>
    if p.1 = c then (p.1, { p.2 with alerts_received := p.2.alerts_received + 1 }) else p)

/-- app/services/websocket_manager.py lines 50-78,
`WebSocketManager.send_alert`.  Whether `connection.send_json(message)`
raises is injected as `fails`.  Returns the new state and, as an
observation of the attempted deliveries, the list of connections that were
sent the alert successfully.  Mirrors the source: early return on an empty
connection list; one pass over `active_connections` collecting failures
into `disconnected` (successes bump the metadata counter); then
`disconnect` each failed connection. -/
def send_alert (fails : Conn → Bool) (st : WSState) : WSState × List Conn :=
  if st.active_connections = [] then (st, [])
  else
    let loopResult :=
      st.active_connections.foldl
        (fun (acc : List (Conn × ConnMeta) × List Conn × List Conn) c =>
          if fails c then (acc.1, acc.2.1, acc.2.2 ++ [c])
          else (bumpAlerts acc.1 c, acc.2.1 ++ [c], acc.2.2))
        (st.connection_metadata, [], [])
    let afterLoop : WSState :=
      { active_connections := st.active_connections
        connection_metadata := loopResult.1 }
    (loopResult.2.2.foldl (fun s c => disconnect s c) afterLoop, loopResult.2.1)

/-! ## Spec-side formulations (for refinement-style claims)

These two definitions follow the words of spec §4.1 / claim C2 (an
additive sum of independently-fired rule increments), to be compared with
`_apply_rules`, which was translated from the source. -/

/-- The rule-score sum as the spec states it: each rule contributes its
increment independently, with the two amount bands mutually exclusive. -/
def spec_rule_sum (t : TransactionCreate) : ℚ :=
  (if t.amount > 10000 then (0.4 : ℚ) else if t.amount > 5000 then 0.2 else 0)
  + (if t.merchant_country ∈ HIGH_RISK_COUNTRIES then 0.3 else 0)
  + (if t.transaction_country ∈ HIGH_RISK_COUNTRIES then 0.2 else 0)
  + (if t.merchant_country ≠ t.transaction_country then 0.1 else 0)
  + (if SUSPICIOUS_MERCHANTS.any (fun s => strContains (strToLower t.merchant_name) s) then 0.3 else 0)
  + (if t.amount > 5000 ∧ t.payment_method = "prepaid_card" then 0.2 else 0)
  + (if !optStrTruthy t.device_id then 0.05 else 0)
  + (if !optStrTruthy t.ip_address then 0.05 else 0)

/-- The reasons of exactly the rules that fire, in rule-evaluation order,
as the spec states them. -/
def spec_rule_reasons (t : TransactionCreate) : List Reason :=
  (if t.amount > 10000 then [Reason.highAmount t.amount]
   else if t.amount > 5000 then [Reason.mediumHighAmount t.amount] else [])
  ++ (if t.merchant_country ∈ HIGH_RISK_COUNTRIES then
        [Reason.highRiskMerchantCountry t.merchant_country] else [])
  ++ (if t.transaction_country ∈ HIGH_RISK_COUNTRIES then
        [Reason.highRiskTransactionCountry t.transaction_country] else [])
  ++ (if t.merchant_country ≠ t.transaction_country then [Reason.crossBorder] else [])
  ++ (if SUSPICIOUS_MERCHANTS.any (fun s => strContains (strToLower t.merchant_name) s) then
        [Reason.suspiciousMerchantName t.merchant_name] else [])
  ++ (if t.amount > 5000 ∧ t.payment_method = "prepaid_card" then
        [Reason.largeAmountOnPrepaidCard] else [])
  ++ (if !optStrTruthy t.device_id then [Reason.missingDeviceInformation] else [])
  ++ (if !optStrTruthy t.ip_address then [Reason.missingIpAddress] else [])

/-! ## Concrete scenarios (spec §8), used by counterexamples and witnesses -/

/-- Scenario B of spec §8: amount 9,500, high-risk merchant country XX,
transaction country US, prepaid card; merchant name clean, device id and
IP address present. -/
def scenarioB : TransactionCreate :=
  { amount := 9500
    transaction_type := "purchase"
    merchant_name := "Global Electronics"
    merchant_category := "Electronics"
    merchant_country := "XX"
    customer_id := "cust-001"
    payment_method := "prepaid_card"
    transaction_country := "US"
    ip_address := some "203.0.113.7"
    device_id := some "device-123" }

/-- Scenario A of spec §8: a plainly low-risk transaction (amount 45.99,
US/US, credit card, device and IP present). -/
def scenarioA : TransactionCreate :=
  { amount := 45.99
    transaction_type := "purchase"
    merchant_name := "Coffee Corner"
    merchant_category := "Food & Beverage"
    merchant_country := "US"
    customer_id := "cust-002"
    payment_method := "credit_card"
    transaction_country := "US"
    ip_address := some "198.51.100.4"
    device_id := some "device-456" }

/-- A concrete registry of three live connections used by the C6 witness. -/
def wsThree : WSState :=
  { active_connections := [1, 2, 3]
    connection_metadata :=
      [(1, ⟨some "a", "t1", 0⟩), (2, ⟨some "b", "t2", 0⟩), (3, ⟨some "c", "t3", 0⟩)] }

/-! ## Helper lemmas -/

lemma ite_nonneg {c : Prop} [Decidable c] {a b : ℚ} (ha : 0 ≤ a) (hb : 0 ≤ b) :
    0 ≤ if c then a else b := by
  split_ifs <;> assumption

lemma spec_rule_sum_nonneg (t : TransactionCreate) : 0 ≤ spec_rule_sum t := by
  unfold spec_rule_sum
  repeat' apply add_nonneg
  all_goals split_ifs <;> norm_num

lemma rule_high_amount_eq (t : TransactionCreate) (acc : ℚ × List Reason) :
    rule_high_amount t acc =
      (acc.1 + (if t.amount > 10000 then (0.4 : ℚ) else if t.amount > 5000 then 0.2 else 0),
       acc.2 ++ (if t.amount > 10000 then [Reason.highAmount t.amount]
                 else if t.amount > 5000 then [Reason.mediumHighAmount t.amount] else [])) := by
  simp only [rule_high_amount, HIGH_RISK_AMOUNT, MEDIUM_RISK_AMOUNT]
  split_ifs <;> simp

lemma rule_merchant_country_eq (t : TransactionCreate) (acc : ℚ × List Reason) :
    rule_merchant_country t acc =
      (acc.1 + (if t.merchant_country ∈ HIGH_RISK_COUNTRIES then (0.3 : ℚ) else 0),
       acc.2 ++ (if t.merchant_country ∈ HIGH_RISK_COUNTRIES then
                   [Reason.highRiskMerchantCountry t.merchant_country] else [])) := by
  simp only [rule_merchant_country]
  split_ifs <;> simp

lemma rule_transaction_country_eq (t : TransactionCreate) (acc : ℚ × List Reason) :
    rule_transaction_country t acc =
      (acc.1 + (if t.transaction_country ∈ HIGH_RISK_COUNTRIES then (0.2 : ℚ) else 0),
       acc.2 ++ (if t.transaction_country ∈ HIGH_RISK_COUNTRIES then
                   [Reason.highRiskTransactionCountry t.transaction_country] else [])) := by
  simp only [rule_transaction_country]
  split_ifs <;> simp

lemma rule_cross_border_eq (t : TransactionCreate) (acc : ℚ × List Reason) :
    rule_cross_border t acc =
      (acc.1 + (if t.merchant_country ≠ t.transaction_country then (0.1 : ℚ) else 0),
       acc.2 ++ (if t.merchant_country ≠ t.transaction_country then [Reason.crossBorder] else [])) := by
  simp only [rule_cross_border]
  split_ifs <;> simp

lemma rule_suspicious_merchant_eq (t : TransactionCreate) (acc : ℚ × List Reason) :
    rule_suspicious_merchant t acc =
      (acc.1 + (if SUSPICIOUS_MERCHANTS.any (fun s => strContains (strToLower t.merchant_name) s)
                then (0.3 : ℚ) else 0),
       acc.2 ++ (if SUSPICIOUS_MERCHANTS.any (fun s => strContains (strToLower t.merchant_name) s)
                 then [Reason.suspiciousMerchantName t.merchant_name] else [])) := by
  simp only [rule_suspicious_merchant]
  split_ifs <;> simp

lemma rule_payment_method_eq (t : TransactionCreate) (acc : ℚ × List Reason) :
    rule_payment_method t acc =
      (acc.1 + (if t.amount > 5000 ∧ t.payment_method = "prepaid_card" then (0.2 : ℚ) else 0),
       acc.2 ++ (if t.amount > 5000 ∧ t.payment_method = "prepaid_card" then
                   [Reason.largeAmountOnPrepaidCard] else [])) := by
  simp only [rule_payment_method]
  split_ifs <;> simp

lemma rule_missing_device_eq (t : TransactionCreate) (acc : ℚ × List Reason) :
    rule_missing_device t acc =
      (acc.1 + (if !optStrTruthy t.device_id then (0.05 : ℚ) else 0),
       acc.2 ++ (if !optStrTruthy t.device_id then [Reason.missingDeviceInformation] else [])) := by
  simp only [rule_missing_device]
  split_ifs <;> simp

lemma rule_missing_ip_eq (t : TransactionCreate) (acc : ℚ × List Reason) :
    rule_missing_ip t acc =
      (acc.1 + (if !optStrTruthy t.ip_address then (0.05 : ℚ) else 0),
       acc.2 ++ (if !optStrTruthy t.ip_address then [Reason.missingIpAddress] else [])) := by
  simp only [rule_missing_ip]
  split_ifs <;> simp

/-- `_apply_rules` computed in closed form: the capped spec sum and the
ordered spec reasons. -/
lemma apply_rules_eq (t : TransactionCreate) :
    _apply_rules t = (min (spec_rule_sum t) 1.0, spec_rule_reasons t) := by
  simp only [_apply_rules, rule_high_amount_eq, rule_merchant_country_eq,
    rule_transaction_country_eq, rule_cross_border_eq, rule_suspicious_merchant_eq,
    rule_payment_method_eq, rule_missing_device_eq, rule_missing_ip_eq,
    spec_rule_sum, spec_rule_reasons, zero_add, List.nil_append]

/-- The score component of `_apply_rules` is the capped spec sum. -/
lemma apply_rules_fst (t : TransactionCreate) :
    (_apply_rules t).1 = min (spec_rule_sum t) 1.0 := by
  rw [apply_rules_eq]

/-- The reasons component of `_apply_rules` is the ordered spec reasons. -/
lemma apply_rules_snd (t : TransactionCreate) :
    (_apply_rules t).2 = spec_rule_reasons t := by
  rw [apply_rules_eq]

lemma apply_rules_nonneg (t : TransactionCreate) : 0 ≤ (_apply_rules t).1 := by
  rw [apply_rules_fst]
  exact le_min (spec_rule_sum_nonneg t) (by norm_num)

lemma apply_rules_le_one (t : TransactionCreate) : (_apply_rules t).1 ≤ 1 := by
  rw [apply_rules_fst]
  have h1 : (1.0 : ℚ) = 1 := by norm_num
  rw [h1]
  exact min_le_right _ _

lemma analyze_combined_eq (t : TransactionCreate) (p : ℚ) (e : MLExplanation) :
    (analyze_transaction t p e).combined_score
      = min (max (0.4 * (_apply_rules t).1 + 0.6 * p) 0.0) 1.0 := by
  simp only [analyze_transaction]
  ring_nf

lemma direct_risk_score (t : TransactionCreate) (p : ℚ) (e : MLExplanation) :
    (create_transaction_direct t p e).risk_score
      = (analyze_transaction t p e).combined_score := rfl

lemma direct_risk_level (t : TransactionCreate) (p : ℚ) (e : MLExplanation) :
    (create_transaction_direct t p e).risk_level
      = get_risk_level (analyze_transaction t p e).combined_score := rfl

lemma direct_fraud_prediction (t : TransactionCreate) (p : ℚ) (e : MLExplanation) :
    (create_transaction_direct t p e).fraud_prediction
      = is_fraud (analyze_transaction t p e).combined_score := rfl

lemma direct_status (t : TransactionCreate) (p : ℚ) (e : MLExplanation) :
    (create_transaction_direct t p e).status
      = (if is_fraud (analyze_transaction t p e).combined_score then TransactionStatus.DECLINED
         else if get_risk_level (analyze_transaction t p e).combined_score = "medium" then
           TransactionStatus.FLAGGED
         else TransactionStatus.APPROVED) := rfl

lemma get_risk_level_eq_high (s : ℚ) : get_risk_level s = "high" ↔ 0.7 ≤ s := by
  unfold get_risk_level
  split_ifs with h1 h2
  · exact iff_of_true rfl h1
  · exact iff_of_false (by decide) h1
  · exact iff_of_false (by decide) h1

lemma is_fraud_eq_true (s : ℚ) : is_fraud s = true ↔ 0.7 ≤ s := by
  simp [is_fraud, ge_iff_le]

lemma scenarioB_sum : spec_rule_sum scenarioB = 0.8 := by
  unfold spec_rule_sum scenarioB
  rw [if_neg (by norm_num : ¬ ((9500 : ℚ) > 10000)),
      if_pos (by norm_num : (9500 : ℚ) > 5000),
      if_pos (by decide : ("XX" : String) ∈ HIGH_RISK_COUNTRIES),
      if_neg (by decide : ¬ (("US" : String) ∈ HIGH_RISK_COUNTRIES)),
      if_pos (by decide : ("XX" : String) ≠ "US"),
      if_neg (by decide :
        ¬ ((SUSPICIOUS_MERCHANTS.any fun s =>
              strContains (strToLower "Global Electronics") s) = true)),
      if_pos (⟨by norm_num, rfl⟩ : ((9500 : ℚ) > 5000 ∧ ("prepaid_card" : String) = "prepaid_card")),
      if_neg (by decide : ¬ ((!optStrTruthy (some "device-123")) = true)),
      if_neg (by decide : ¬ ((!optStrTruthy (some "203.0.113.7")) = true))]
  norm_num

lemma scenarioB_rule_score : (_apply_rules scenarioB).1 = 0.8 := by
  rw [apply_rules_fst, scenarioB_sum]
  norm_num

lemma process_messages_run {α : Type} (handle : α → Except String Unit)
    (msgs : List α) :
    ∀ st : ConsumerState, st.running = true →
      process_messages handle msgs st
        = { running := st.running
            processed_count := st.processed_count
                + msgs.countP (fun x => sendSucceeded (handle x))
            error_count := st.error_count
                + msgs.countP (fun x => !sendSucceeded (handle x)) } := by
  induction msgs with
  | nil =>
    intro st h
    simp [process_messages]
  | cons m rest ih =>
    intro st h
    have hrun : (!st.running) = false := by rw [h]; rfl
    rw [process_messages, hrun]
    simp only [Bool.false_eq_true, if_false]
    cases hm : handle m with
    | ok u =>
      rw [ih { st with processed_count := st.processed_count + 1 } h]
      simp [List.countP_cons, hm, sendSucceeded]
      omega
    | error err =>
      rw [ih { st with error_count := st.error_count + 1 } h]
      simp [List.countP_cons, hm, sendSucceeded]
      omega

lemma send_loop_spec (fails : Conn → Bool) (l : List Conn) :
    ∀ (meta : List (Conn × ConnMeta)) (d dis : List Conn),
      List.foldl
        (fun (acc : List (Conn × ConnMeta) × List Conn × List Conn) c =>
          if fails c then (acc.1, acc.2.1, acc.2.2 ++ [c])
          else (bumpAlerts acc.1 c, acc.2.1 ++ [c], acc.2.2))
        (meta, d, dis) l
      = ((l.filter (fun c => !fails c)).foldl bumpAlerts meta,
         d ++ l.filter (fun c => !fails c),
         dis ++ l.filter fails) := by
  induction l with
  | nil => intro meta d dis; simp
  | cons c cs ih =>
    intro meta d dis
    cases hc : fails c with
    | true =>
      rw [List.foldl_cons]
      simp only [hc, if_true]
      rw [ih]
      simp [List.filter_cons, hc]
    | false =>
      rw [List.foldl_cons]
      simp only [hc, Bool.false_eq_true, if_false]
      rw [ih]
      simp [List.filter_cons, hc]

lemma disconnect_active (st : WSState) (c : Conn) :
    (disconnect st c).active_connections = st.active_connections.erase c := by
  simp only [disconnect]
  split_ifs with h
  · rfl
  · exact (List.erase_of_not_mem h).symm

lemma foldl_disconnect_active (fs : List Conn) :
    ∀ st : WSState, (fs.foldl (fun s c => disconnect s c) st).active_connections
      = st.active_connections.diff fs := by
  induction fs with
  | nil => intro st; simp
  | cons c cs ih =>
    intro st
    rw [List.foldl_cons, ih, List.diff_cons, disconnect_active]

lemma nodup_diff_filter (a : List Conn) (fails : Conn → Bool) (h : a.Nodup) :
    a.diff (a.filter fails) = a.filter (fun c => !fails c) := by
  rw [h.diff_eq_filter]
  apply List.filter_congr
  intro x hx
  cases hfx : fails x <;> simp [List.mem_filter, hx, hfx]

end FraudDetection

namespace FraudDetection

/-! ## Claim theorems -/

/-- Claim C1: for every scored transaction, the assigned status is a total
function of the fraud flag and the risk level — fraud flag true gives
DECLINED; otherwise risk level "medium" gives FLAGGED; otherwise APPROVED —
and the fraud flag is true exactly when the combined score is at least 0.7
(so the fraud flag always implies a score of at least 0.7). -/
theorem C1_status_total_function (t : TransactionCreate) (p : ℚ) (e : MLExplanation) :
    (create_transaction_direct t p e).status
      = (if (create_transaction_direct t p e).fraud_prediction then TransactionStatus.DECLINED
         else if (create_transaction_direct t p e).risk_level = "medium" then
           TransactionStatus.FLAGGED
         else TransactionStatus.APPROVED)
    ∧ ((create_transaction_direct t p e).fraud_prediction = true
        ↔ (create_transaction_direct t p e).risk_score ≥ 0.7) := by
  constructor
  · rw [direct_status, direct_fraud_prediction, direct_risk_level]
  · rw [direct_fraud_prediction, direct_risk_score, is_fraud_eq_true, ge_iff_le]

/-- Claim C2: the rule evaluator returns exactly the sum of the increments
of the rules that fire, capped at 1.0 via min, with the reasons of exactly
the firing rules in rule-evaluation order; and the evaluator is a pure
function, so two calls on the identical transaction return the identical
result. -/
theorem C2_rule_evaluator_exact (t : TransactionCreate) :
    _apply_rules t = (min (spec_rule_sum t) 1.0, spec_rule_reasons t)
    ∧ _apply_rules t = _apply_rules t :=
  ⟨apply_rules_eq t, rfl⟩

/-- Claim C3: the combined risk score is the fixed weighted average
0.4 * rule score + 0.6 * ML probability, clamped to the unit interval, and
consequently both the rule score and the combined score lie in the unit
interval, for every transaction and every injected ML probability. -/
theorem C3_combined_score_clamped (t : TransactionCreate) (p : ℚ) (e : MLExplanation) :
    (analyze_transaction t p e).combined_score
        = min (max (0.4 * (_apply_rules t).1 + 0.6 * p) 0.0) 1.0
    ∧ 0 ≤ (_apply_rules t).1 ∧ (_apply_rules t).1 ≤ 1
    ∧ 0 ≤ (analyze_transaction t p e).combined_score
    ∧ (analyze_transaction t p e).combined_score ≤ 1 := by
  refine ⟨analyze_combined_eq t p e, apply_rules_nonneg t, apply_rules_le_one t, ?_, ?_⟩
  · rw [analyze_combined_eq]
    have h0 : (0 : ℚ) ≤ max (0.4 * (_apply_rules t).1 + 0.6 * p) 0.0 :=
      le_trans (by norm_num) (le_max_right _ _)
    exact le_min h0 (by norm_num)
  · rw [analyze_combined_eq]
    exact le_trans (min_le_right _ _) (by norm_num)

end FraudDetection

namespace FraudDetection

/-- Claim C9: for every scored transaction, the manual-review flag of the
analysis endpoint is true if and only if the absolute difference of the ML
score and the rule score exceeds 0.4 or the risk level is "medium"; the ML
and rule scores it tests are the injected ML probability and the rule
evaluator's score. -/
theorem C9_manual_review_flag (t : TransactionCreate) (p : ℚ) (e : MLExplanation) :
    ((analyze_transaction_endpoint t p e).requires_manual_review = true
      ↔ (|(analyze_transaction_endpoint t p e).ml_info.ml_score
            - (analyze_transaction_endpoint t p e).ml_info.rule_score| > 0.4
          ∨ (analyze_transaction_endpoint t p e).risk_level = "medium"))
    ∧ (analyze_transaction_endpoint t p e).ml_info.ml_score = p
    ∧ (analyze_transaction_endpoint t p e).ml_info.rule_score = (_apply_rules t).1 := by
  refine ⟨?_, rfl, rfl⟩
  simp only [analyze_transaction_endpoint, Bool.or_eq_true, beq_iff_eq, decide_eq_true_eq]
  tauto

/-- Claim C10: in streamed mode, every accepted enqueue returns the full
scored-record shape with fixed placeholders — id 0, status PENDING,
risk score 0.0, risk level "low", fraud flag false, no fraud reasons,
verification not required, and absent ML score, rule score and ML
confidence. -/
theorem C10_streamed_placeholder_response (t : TransactionCreate) (now : String) :
    create_transaction_streamed true t now = .ok (streamed_response t now)
    ∧ (streamed_response t now).id = 0
    ∧ (streamed_response t now).status = TransactionStatus.PENDING
    ∧ (streamed_response t now).risk_score = 0.0
    ∧ (streamed_response t now).risk_level = "low"
    ∧ (streamed_response t now).fraud_prediction = false
    ∧ (streamed_response t now).fraud_reasons = []
    ∧ (streamed_response t now).verification_required = false
    ∧ (streamed_response t now).ml_score = none
    ∧ (streamed_response t now).rule_score = none
    ∧ (streamed_response t now).ml_confidence = none :=
  ⟨rfl, rfl, rfl, rfl, rfl, rfl, rfl, rfl, rfl, rfl, rfl⟩

/-- Claim C8: each transport publish operation reports its outcome
synchronously to the immediate caller — it returns true exactly when the
underlying send succeeded and false exactly when it raised a KafkaError —
and the streamed-mode entry rejects the request (returns an HTTP error,
not a response) whenever publish reports failure. -/
theorem C8_publish_reports_outcome
    (sendT : String → String → InboundMessage → Except String Unit)
    (sendA : String → String → AlertData → Except String Unit)
    (sendP : String → String → ProcessedResult → Except String Unit)
    (t : TransactionCreate) (tid now : String) (alert : AlertData) (res : ProcessedResult) :
    publish_transaction sendT t tid now
        = sendSucceeded (sendT TRANSACTION_TOPIC tid
            { transaction_id := tid, timestamp := now, data := t, status := "pending_analysis" })
    ∧ publish_alert sendA alert = sendSucceeded (sendA ALERT_TOPIC alert.transaction_id alert)
    ∧ publish_processed_result sendP res
        = sendSucceeded (sendP PROCESSED_TOPIC res.transaction_id res)
    ∧ sendSucceeded (create_transaction_streamed false t now) = false := by
  refine ⟨?_, ?_, ?_, rfl⟩
  · cases h : sendT TRANSACTION_TOPIC tid
        { transaction_id := tid, timestamp := now, data := t, status := "pending_analysis" } <;>
      simp [publish_transaction, sendSucceeded, h]
  · cases h : sendA ALERT_TOPIC alert.transaction_id alert <;>
      simp [publish_alert, sendSucceeded, h]
  · cases h : sendP PROCESSED_TOPIC res.transaction_id res <;>
      simp [publish_processed_result, sendSucceeded, h]

end FraudDetection

namespace FraudDetection

/-- Claim C5: with no trained model loaded the estimator returns exactly
probability 0.5 with a status explanation noting the model's absence, as a
normal return (the `noModel` shape, not the failure shape); with a model
loaded and predicting probability `p`, the returned explanation's
confidence label is "high" exactly when the distance of `p` from 0.5
exceeds 0.3 and "medium" otherwise. -/
theorem C5_ml_degraded_mode_and_confidence
    (now_hour now_weekday : ℕ) (t : TransactionCreate)
    (predict : List ℚ → Except String ℚ) (p : ℚ)
    (h : predict (extract_features now_hour now_weekday t) = .ok p) :
    predict_fraud_probability none now_hour now_weekday t
        = (0.5, .noModel "No ML model available, using rules only")
    ∧ (predict_fraud_probability (some predict) now_hour now_weekday t).1 = p
    ∧ (predict_fraud_probability (some predict) now_hour now_weekday t).2.modelConfidence
        = (if |p - 0.5| > 0.3 then "high" else "medium") := by
  refine ⟨rfl, ?_, ?_⟩ <;>
    simp [predict_fraud_probability, h, MLExplanation.modelConfidence]

/-- Witness for C5: the no-model mode and a loaded model predicting 0.9 on
the Scenario A transaction, whose confidence label evaluates to "high". -/
theorem C5_ml_degraded_mode_and_confidence_witness :
    (fun _ : List ℚ => (Except.ok (0.9 : ℚ) : Except String ℚ)) (extract_features 10 2 scenarioA)
        = (Except.ok (0.9 : ℚ) : Except String ℚ)
    ∧ predict_fraud_probability none 10 2 scenarioA
        = (0.5, .noModel "No ML model available, using rules only")
    ∧ (predict_fraud_probability (some fun _ => (Except.ok (0.9 : ℚ) : Except String ℚ)) 10 2
          scenarioA).1 = 0.9
    ∧ (predict_fraud_probability (some fun _ => (Except.ok (0.9 : ℚ) : Except String ℚ)) 10 2
          scenarioA).2.modelConfidence = "high" := by
  have h := C5_ml_degraded_mode_and_confidence 10 2 scenarioA
    (fun _ => Except.ok (0.9 : ℚ)) 0.9 rfl
  have hc : |(0.9 : ℚ) - 0.5| > 0.3 := by
    rw [abs_of_pos (by norm_num : (0 : ℚ) < 0.9 - 0.5)]
    norm_num
  exact ⟨rfl, h.1, h.2.1, by rw [h.2.2, if_pos hc]⟩

/-- Claim C7: in the consume loop, a failed message handling increments the
error counter and the loop continues (it stays running and still counts
every later message), a successful handling increments the processed
counter, and replaying the identical successfully-handled message twice
increments the processed counter by exactly two. -/
theorem C7_consume_loop_error_isolation {α : Type} (handle : α → Except String Unit)
    (msgs : List α) (st : ConsumerState) (m : α)
    (h : st.running = true) (hm : handle m = .ok ()) :
    (process_messages handle msgs st).running = true
    ∧ (process_messages handle msgs st).processed_count
        = st.processed_count + msgs.countP (fun x => sendSucceeded (handle x))
    ∧ (process_messages handle msgs st).error_count
        = st.error_count + msgs.countP (fun x => !sendSucceeded (handle x))
    ∧ (process_messages handle [m, m] st).processed_count = st.processed_count + 2 := by
  have hgen := process_messages_run handle msgs st h
  have hrep := process_messages_run handle [m, m] st h
  refine ⟨by rw [hgen]; exact h, by rw [hgen], by rw [hgen], ?_⟩
  rw [hrep]
  simp [List.countP_cons, hm, sendSucceeded]

/-- Witness for C7: a handler that fails on message 2, run over the
messages 1, 2, 3 from a freshly started consumer, with message 7 as the
replayed successful message. -/
theorem C7_consume_loop_error_isolation_witness :
    ({ running := true, processed_count := 0, error_count := 0 } : ConsumerState).running = true
    ∧ ((fun n : ℕ => if n = 2 then Except.error "boom" else Except.ok ()) 7 = Except.ok ())
    ∧ ((process_messages (fun n : ℕ => if n = 2 then Except.error "boom" else Except.ok ())
          [1, 2, 3] { running := true, processed_count := 0, error_count := 0 }).running = true
       ∧ (process_messages (fun n : ℕ => if n = 2 then Except.error "boom" else Except.ok ())
            [1, 2, 3] { running := true, processed_count := 0, error_count := 0 }).processed_count
          = 0 + [1, 2, 3].countP (fun x => sendSucceeded
              ((fun n : ℕ => if n = 2 then Except.error "boom" else Except.ok ()) x))
       ∧ (process_messages (fun n : ℕ => if n = 2 then Except.error "boom" else Except.ok ())
            [1, 2, 3] { running := true, processed_count := 0, error_count := 0 }).error_count
          = 0 + [1, 2, 3].countP (fun x => !sendSucceeded
              ((fun n : ℕ => if n = 2 then Except.error "boom" else Except.ok ()) x))
       ∧ (process_messages (fun n : ℕ => if n = 2 then Except.error "boom" else Except.ok ())
            [7, 7] { running := true, processed_count := 0, error_count := 0 }).processed_count
          = 0 + 2) :=
  ⟨rfl, rfl,
   C7_consume_loop_error_isolation
     (fun n : ℕ => if n = 2 then Except.error "boom" else Except.ok ())
     [1, 2, 3] { running := true, processed_count := 0, error_count := 0 } 7 rfl rfl⟩

end FraudDetection

namespace FraudDetection

/-- Claim C6: in a broadcast over live subscriber connections (no
duplicate handles) where an arbitrary subset fails delivery, delivery is
attempted and succeeds for exactly the non-failing subscribers in order
(one failure never prevents the rest), every failing subscriber is evicted
from the registry and so excluded from subsequent broadcasts, and the
subscriber count decreases by exactly the number of failed subscribers. -/
theorem C6_broadcast_fanout_isolation (fails : Conn → Bool) (st : WSState)
    (h : st.active_connections.Nodup) :
    (send_alert fails st).2 = st.active_connections.filter (fun c => !fails c)
    ∧ (send_alert fails st).1.active_connections
        = st.active_connections.filter (fun c => !fails c)
    ∧ (∀ c, fails c = true → c ∉ (send_alert fails st).1.active_connections)
    ∧ (send_alert fails st).1.active_connections.length
        = st.active_connections.length - (st.active_connections.filter fails).length := by
  have key : (send_alert fails st).2 = st.active_connections.filter (fun c => !fails c)
      ∧ (send_alert fails st).1.active_connections
          = st.active_connections.filter (fun c => !fails c) := by
    by_cases hemp : st.active_connections = []
    · constructor <;> simp [send_alert, hemp]
    · constructor <;>
        simp only [send_alert, if_neg hemp, send_loop_spec, List.nil_append,
          foldl_disconnect_active, nodup_diff_filter st.active_connections fails h]
  refine ⟨key.1, key.2, ?_, ?_⟩
  · intro c hc
    rw [key.2]
    simp [List.mem_filter, hc]
  · rw [key.2]
    have hlen := List.length_eq_length_filter_add (l := st.active_connections) fails
    omega

/-- Witness for C6: three distinct live connections of which connection 2
fails delivery; the broadcast delivers to 1 and 3, evicts 2, and the
count drops from three to two. -/
theorem C6_broadcast_fanout_isolation_witness :
    wsThree.active_connections.Nodup
    ∧ (send_alert (fun c => c == 2) wsThree).2 = [1, 3]
    ∧ (send_alert (fun c => c == 2) wsThree).1.active_connections = [1, 3]
    ∧ (send_alert (fun c => c == 2) wsThree).1.active_connections.length
        = wsThree.active_connections.length
            - (wsThree.active_connections.filter (fun c => c == 2)).length := by
  have h := C6_broadcast_fanout_isolation (fun c => c == 2) wsThree (by decide)
  refine ⟨by decide, ?_, ?_, h.2.2.2⟩
  · rw [h.1]; decide
  · rw [h.2.1]; decide

end FraudDetection

namespace FraudDetection

/-- Counterexample to claim C4 as stated: for the Scenario B transaction
the rule score is indeed the raw 0.8, but combining it with the
non-negative ML input 0 yields combined score 0.32 and risk level
"medium" — not "high", refuting that the level is high for any
non-negative ML input. -/
theorem C4_scenarioB_counterexample :
    (0 : ℚ) ≥ 0
    ∧ (_apply_rules scenarioB).1 = 0.8
    ∧ (create_transaction_direct scenarioB 0
        (.noModel "No ML model available, using rules only")).risk_score = 0.32
    ∧ (create_transaction_direct scenarioB 0
        (.noModel "No ML model available, using rules only")).risk_level = "medium"
    ∧ (create_transaction_direct scenarioB 0
        (.noModel "No ML model available, using rules only")).risk_level ≠ "high" := by
  have hcomb : (analyze_transaction scenarioB 0
      (MLExplanation.noModel "No ML model available, using rules only")).combined_score
        = 0.32 := by
    rw [analyze_combined_eq, scenarioB_rule_score]
    norm_num
  have hlev : get_risk_level (0.32 : ℚ) = "medium" := by
    norm_num [get_risk_level]
  refine ⟨le_refl 0, scenarioB_rule_score, ?_, ?_, ?_⟩
  · rw [direct_risk_score, hcomb]
  · rw [direct_risk_level, hcomb, hlev]
  · rw [direct_risk_level, hcomb, hlev]
    decide

/-- Claim C4, amended: for the Scenario B transaction the rule score is the
raw sum 0.8 with no capping needed, and — combining with a non-negative ML
input p — the risk level is "high" exactly when p is at least 19/30 (i.e.
when the combined score 0.32 + 0.6 * p reaches 0.7); the status is DECLINED
whenever the combined score is at least 0.7. -/
theorem C4_scenarioB_amended (p : ℚ) (e : MLExplanation) (hp : 0 ≤ p) :
    (_apply_rules scenarioB).1 = 0.8
    ∧ ((create_transaction_direct scenarioB p e).risk_level = "high" ↔ 19/30 ≤ p)
    ∧ ((create_transaction_direct scenarioB p e).risk_score ≥ 0.7
        → (create_transaction_direct scenarioB p e).status = TransactionStatus.DECLINED) := by
  have hcomb : (analyze_transaction scenarioB p e).combined_score
      = min (0.32 + 0.6 * p) 1.0 := by
    rw [analyze_combined_eq, scenarioB_rule_score,
      max_eq_left (by nlinarith : (0.0 : ℚ) ≤ 0.4 * 0.8 + 0.6 * p)]
    norm_num
  refine ⟨scenarioB_rule_score, ?_, ?_⟩
  · rw [direct_risk_level, hcomb, get_risk_level_eq_high]
    constructor
    · intro hscore
      have h1 : (0.7 : ℚ) ≤ 0.32 + 0.6 * p := le_trans hscore (min_le_left _ _)
      linarith
    · intro hple
      exact le_min (by linarith) (by norm_num)
  · intro hscore
    rw [direct_status]
    have hf : is_fraud (analyze_transaction scenarioB p e).combined_score = true :=
      (is_fraud_eq_true _).mpr hscore
    rw [if_pos hf]

/-- Witness for the amended C4 at the concrete ML input 1 (a non-negative
input past the 19/30 threshold): the level is "high" and the status
DECLINED. -/
theorem C4_scenarioB_amended_witness :
    (0 : ℚ) ≤ 1
    ∧ (_apply_rules scenarioB).1 = 0.8
    ∧ (create_transaction_direct scenarioB 1 (.noModel "x")).risk_level = "high"
    ∧ (create_transaction_direct scenarioB 1 (.noModel "x")).status
        = TransactionStatus.DECLINED := by
  have h := C4_scenarioB_amended 1 (.noModel "x") (by norm_num)
  have hscore : (create_transaction_direct scenarioB 1 (.noModel "x")).risk_score ≥ 0.7 := by
    rw [direct_risk_score, analyze_combined_eq, scenarioB_rule_score,
      max_eq_left (by norm_num : (0.0 : ℚ) ≤ 0.4 * 0.8 + 0.6 * 1),
      min_eq_left (by norm_num : (0.4 * 0.8 + 0.6 * 1 : ℚ) ≤ 1.0)]
    norm_num
  exact ⟨by norm_num, h.1, h.2.1.mpr (by norm_num), h.2.2 hscore⟩

end FraudDetection
